import Mathlib

/-!
Shallow embedding of the `remote_explorer_game` Python client library
(`py-lib/remote_explorer_game/remote_explorer_game.py`) and proofs about it.

The embedding models:
  * `Tile` and its JSON (de)serialization (`Tile.to_json` / `Tile.from_json`);
  * `MovementResult`;
  * the session's derived state (`last_response_message`, `is_agent_alive`,
    `_discovered_tile`) and `RemoteGameSession._parse_move_response`,
    including the mid-function exception path when `Tile.from_json` raises;
  * `RemoteGameSession._normalize_move`, `move` and the completion logic of
    `move_async` (`_runner_async` / `_runner_thread`), with the HTTP exchange
    abstracted as a `TransportOutcome` (the actual socket I/O is outside the
    embedding; everything after the exchange is modelled statement by
    statement);
  * the `AsyncMovementResult` handle and its resolution steps;
  * `VisualSessionIdentifier` construction and label assignment;
  * `RemoteGameSessionFactory.create`'s handling of the connect response.

Python exceptions are modelled with `Except`: an operation that raises
returns `.error` and, where the original code mutates `self` before raising,
the model returns the partially-updated state alongside the error.
-/

namespace RemoteExplorerGame

/-- Console colors (`Color` enum); the wire string equals the member name. -/
inductive Color where
  | Black | DarkBlue | DarkGreen | DarkCyan | DarkRed | DarkMagenta
  | DarkYellow | Gray | DarkGray | Blue | Green | Cyan | Red | Magenta
  | Yellow | White
deriving DecidableEq, Repr

/-- Two-character map tile: `left` and `right` are each exactly one
character, modelled as `Char`. -/
structure Tile where
  left : Char
  right : Char
deriving DecidableEq, Repr

/-- `str(tile)` = the two characters concatenated. -/
def Tile.toStr (t : Tile) : String :=
  String.mk [t.left, t.right]

/-- `Tile(data)` for a string argument: requires exactly 2 characters,
then takes `data[0]` and `data[1]`. -/
def Tile.ofString (data : String) : Except String Tile :=
  if data.length ≠ 2 then
    .error "Tile string must have exactly 2 characters."
  else
    match data.data with
    | a :: b :: _ => .ok ⟨a, b⟩
    | _ => .error "Tile string must have exactly 2 characters."

/-- The JSON record for a tile; `str` is `obj.get("str")`, absent ⇒ `none`. -/
structure TileJson where
  str : Option String
deriving DecidableEq, Repr

/-- `Tile.to_json`: `None ↦ None`, otherwise `{"str": str(tile)}`. -/
def Tile.to_json : Option Tile → Option TileJson
  | none => none
  | some t => some ⟨some t.toStr⟩

/-- `Tile.from_json`: `None ↦ None`; a record whose `str` is absent or not
exactly 2 characters raises `ValueError`; otherwise builds `Tile(s)`. -/
def Tile.from_json : Option TileJson → Except String (Option Tile)
  | none => .ok none
  | some obj =>
    match obj.str with
    | none => .error "Invalid tile JSON: missing/invalid 'str'."
    | some s =>
      if s.length ≠ 2 then .error "Invalid tile JSON: missing/invalid 'str'."
      else (Tile.ofString s).map some

/-- Outcome of a movement attempt (`MovementResult`, frozen dataclass). -/
structure MovementResult where
  moved_successfully : Bool
  is_agent_alive : Bool
  discovered_tile : Option Tile := none
deriving DecidableEq, Repr

/-- The derived state a `RemoteGameSession` keeps between moves. -/
structure SessionState where
  last_response_message : Option String
  is_agent_alive : Bool
  discovered_tile : Option Tile
deriving DecidableEq, Repr

/-- A fresh session's derived state (`RemoteGameSession.__init__`). -/
def SessionState.initial : SessionState :=
  { last_response_message := none, is_agent_alive := true, discovered_tile := none }

/-- A `/move` response payload as seen by `_parse_move_response`: each
`payload.get(k)` is an `Option`. JSON booleans are modelled as `Bool`
(`bool(...)` of the decoded value). `discovered` is `none` when the field
is absent or JSON `null` (both give `payload.get("discovered") is None`). -/
structure MovePayload where
  success : Option Bool := none
  moved : Option Bool := none
  alive : Option Bool := none
  message : Option String := none
  discovered : Option TileJson := none
deriving DecidableEq, Repr

/-- `RemoteGameSession._parse_move_response`, statement by statement.
Returns the session state after the call together with the returned
`MovementResult`, or the state at the point a `ValueError` escaped from
`Tile.from_json` (in that case `last_response_message` has already been
assigned but `_discovered_tile` and `is_agent_alive` have not). -/
def parse_move_response (s : SessionState) (payload : MovePayload) :
    SessionState × Except String MovementResult :=
  let s1 : SessionState := { s with last_response_message := payload.message }
  match Tile.from_json payload.discovered with
  | .error e => (s1, .error e)
  | .ok discovered_tile =>
    let s2 : SessionState := { s1 with discovered_tile := discovered_tile }
    let success := payload.success.getD false
    if !success then
      let s3 : SessionState := { s2 with is_agent_alive := false }
      (s3, .ok ⟨false, s3.is_agent_alive, discovered_tile⟩)
    else
      let moved := payload.moved.getD false
      let alive := payload.alive.getD false
      let s3 : SessionState := { s2 with is_agent_alive := alive }
      (s3, .ok ⟨moved, s3.is_agent_alive, discovered_tile⟩)

/-- `np.array(move, dtype=int)` converts each entry to a 64-bit C long and
raises `OverflowError` for an entry outside `[-2^63, 2^63 - 1]`. -/
def fitsCLong (n : Int) : Bool :=
  -9223372036854775808 ≤ n && n ≤ 9223372036854775807

/-- `RemoteGameSession._normalize_move` on a length-`n` integer sequence:
`np.array(move, dtype=int)` raises `OverflowError` if any entry overflows
the 64-bit machine integer; the resulting array has shape `(n,)`; the
shape check then accepts exactly `(2,)` and the function returns
`(int(arr[0]), int(arr[1]))`, the entries unchanged. -/
def normalize_move (move : List Int) : Except String (Int × Int) :=
  if !(move.all fitsCLong) then
    .error "Python int too large to convert to C long"
  else
    match move with
    | [a, b] => .ok (a, b)
    | _ => .error "move must be a length-2 sequence/array, got wrong shape"

/-- Abstraction of one HTTP exchange against the move endpoint: either a
transport-level failure (network error, timeout, or the non-2xx status
surfaced by `resp.raise_for_status()`), carrying the exception text, or a
2xx response with a decoded JSON payload. -/
inductive TransportOutcome where
  | failure (err : String)
  | success (payload : MovePayload)
deriving DecidableEq, Repr

/-- Errors `RemoteGameSession.move` can raise: `validation` is an
exception raised by `_normalize_move` before any request (the shape
`ValueError` or numpy's `OverflowError`), carrying its message. -/
inductive MoveError where
  | validation (msg : String)
  | transport (msg : String)
  | decode (msg : String)
deriving DecidableEq, Repr

/-- `RemoteGameSession.move`: normalize, issue the request (abstracted as
`outcome`), `raise_for_status`, then `_parse_move_response`. The returned
state is the session state when the call returns or when the exception
escapes. -/
def move (s : SessionState) (mv : List Int) (outcome : TransportOutcome) :
    SessionState × Except MoveError MovementResult :=
  match normalize_move mv with
  | .error e => (s, .error (.validation e))
  | .ok _ =>
    match outcome with
    | .failure e => (s, .error (.transport e))
    | .success payload =>
      match parse_move_response s payload with
      | (s', .error e) => (s', .error (.decode e))
      | (s', .ok res) => (s', .ok res)

/-- The fields of an `AsyncMovementResult` handle (`ready`,
`movement_result`, and the `threading.Event` `_done`). -/
structure AsyncMovementResult where
  ready : Bool
  movement_result : Option MovementResult
  done : Bool
deriving DecidableEq, Repr

/-- `AsyncMovementResult.__init__`: `ready=False`, `movement_result=None`,
`_done` not set. -/
def AsyncMovementResult.initial : AsyncMovementResult :=
  { ready := false, movement_result := none, done := false }

/-- `AsyncMovementResult.wait`: `finished` is whether `_done.wait(timeout)`
observed the event within the timeout; returns `movement_result` if
finished, else `None`. -/
def AsyncMovementResult.wait (h : AsyncMovementResult) (finished : Bool) :
    Option MovementResult :=
  if finished then h.movement_result else none

/-- The body shared by `_runner_async` and `_runner_thread` in
`move_async`: on any exception from the exchange or from
`_parse_move_response` (caught by `except Exception as e`), set
`last_response_message = str(e)` and use `MovementResult(False, False,
None)`; then resolve the handle (`movement_result`, `ready`,
`_done.set()`). Returns the session state and handle after the runner
finishes. -/
def runner_complete (s : SessionState) (h : AsyncMovementResult)
    (outcome : TransportOutcome) : SessionState × AsyncMovementResult :=
  let (s', result) :=
    match outcome with
    | .failure e => ({ s with last_response_message := some e },
                     (⟨false, false, none⟩ : MovementResult))
    | .success payload =>
      match parse_move_response s payload with
      | (sp, .ok res) => (sp, res)
      | (sp, .error e) => ({ sp with last_response_message := some e },
                           (⟨false, false, none⟩ : MovementResult))
  (s', { h with movement_result := some result, ready := true, done := true })

/-- One observable step of an `AsyncMovementResult` handle during its
runner's completion sequence (lines `handle.movement_result = result`,
`handle.ready = True`, `handle._done.set()`): the result is assigned
first, then `ready` is flipped, then the event is set. `r` is the
`MovementResult` the single completion delivers. -/
inductive HandleStep (r : MovementResult) :
    AsyncMovementResult → AsyncMovementResult → Prop where
  | assign_result :
      HandleStep r ⟨false, none, false⟩ ⟨false, some r, false⟩
  | set_ready :
      HandleStep r ⟨false, some r, false⟩ ⟨true, some r, false⟩
  | set_done :
      HandleStep r ⟨true, some r, false⟩ ⟨true, some r, true⟩

/-- Handle states reachable from the freshly constructed handle by the
completion sequence. -/
inductive HandleReachable (r : MovementResult) : AsyncMovementResult → Prop where
  | init : HandleReachable r AsyncMovementResult.initial
  | step {a b : AsyncMovementResult} :
      HandleReachable r a → HandleStep r a b → HandleReachable r b

/-- `VisualSessionIdentifier` fields. -/
structure VisualSessionIdentifier where
  identifier_str : String
  color : Color
deriving DecidableEq, Repr

/-- `VisualSessionIdentifier.__init__`: raises `ValueError` when the label
has more than 2 characters. -/
def VisualSessionIdentifier.make (s : String) (c : Color) :
    Except String VisualSessionIdentifier :=
  if s.length > 2 then
    .error "Identifier string can be 2 characters at most."
  else
    .ok { identifier_str := s, color := c }

/-- The `identifier_str` setter: returns the object state after the call
together with the raised `ValueError`, if any — the check precedes the
assignment, so on failure the stored label is untouched. -/
def VisualSessionIdentifier.set_identifier_str (v : VisualSessionIdentifier)
    (s : String) : VisualSessionIdentifier × Except String Unit :=
  if s.length > 2 then
    (v, .error "Identifier string can be 2 characters at most.")
  else
    ({ v with identifier_str := s }, .ok ())

/-- `VisualSessionIdentifier` objects reachable through the class's public
operations: construction and any number of `identifier_str` / `color`
assignment attempts (a raising attempt leaves the object as it was). -/
inductive VsidReachable : VisualSessionIdentifier → Prop where
  | construct {s : String} {c : Color} {v : VisualSessionIdentifier} :
      VisualSessionIdentifier.make s c = .ok v → VsidReachable v
  | set_label {v : VisualSessionIdentifier} (s : String) :
      VsidReachable v → VsidReachable (v.set_identifier_str s).1
  | set_color {v : VisualSessionIdentifier} {c : Color} :
      VsidReachable v → VsidReachable { v with color := c }

/-- The decoded JSON of a `/connect` response as `create` reads it:
`data.get("success", False)`, `data.get("sid")`,
`data.get("message", ...)`. -/
structure ConnectResponse where
  success : Option Bool := none
  sid : Option String := none
  message : Option String := none
deriving DecidableEq, Repr

/-- Errors `RemoteGameSessionFactory.create` raises after a 2xx connect
response. Both branches raise `RuntimeError` in the source; the
constructor records which branch raised, and the carried string is the
exception's message. -/
inductive CreateError where
  | connect_rejected (msg : String)
  | protocol (msg : String)
deriving DecidableEq, Repr

/-- `if not sid` on an `Optional[str]`: true for `None` and for `""`. -/
def sidFalsy : Option String → Bool
  | none => true
  | some s => s = ""

/-- The tail of `RemoteGameSessionFactory.create` after a 2xx response:
reject on `success` false/absent with the server message (or the generic
fallback), reject on a falsy `sid` with the missing-'sid' `RuntimeError`,
otherwise produce a session bound to `sid` with fresh derived state
(`is_agent_alive = True`). -/
def factory_create (data : ConnectResponse) :
    Except CreateError (String × SessionState) :=
  if !(data.success.getD false) then
    .error (.connect_rejected
      (data.message.getD "Unknown error during session creation."))
  else if sidFalsy data.sid then
    .error (.protocol "Invalid response from server: missing 'sid'.")
  else
    match data.sid with
    | some sid => .ok (sid, SessionState.initial)
    | none => .error (.protocol "Invalid response from server: missing 'sid'.")

/-! ## Helper lemmas -/

/-- Closed-form characterization of `parse_move_response`: on a decode
failure only `last_response_message` has been updated; otherwise the state
and result follow the `success` branch. -/
theorem parse_move_response_spec (s : SessionState) (p : MovePayload) :
    parse_move_response s p =
      match Tile.from_json p.discovered with
      | .error e => ({ s with last_response_message := p.message }, .error e)
      | .ok dt =>
        if p.success.getD false then
          (⟨p.message, p.alive.getD false, dt⟩,
           .ok ⟨p.moved.getD false, p.alive.getD false, dt⟩)
        else
          (⟨p.message, false, dt⟩, .ok ⟨false, false, dt⟩) := by
  unfold parse_move_response
  rcases hd : Tile.from_json p.discovered with e | dt
  · simp
  · rcases hs : p.success.getD false <;> simp [hs]

/-! ## Claim theorems -/

/-- C1: for every decodable move-response payload, `_parse_move_response`
follows the spec's branch algorithm: `success` false or absent gives agent
dead and `MovementResult(false, false, discoveredTile)`; otherwise `moved`
and `alive` default to false, the session's alive flag becomes `alive`,
and the result is `MovementResult(moved, alive, discoveredTile)`. -/
theorem parse_move_response_branch_algorithm (s : SessionState)
    (p : MovePayload) (dt : Option Tile)
    (hd : Tile.from_json p.discovered = .ok dt) :
    parse_move_response s p =
      if p.success.getD false then
        (⟨p.message, p.alive.getD false, dt⟩,
         .ok ⟨p.moved.getD false, p.alive.getD false, dt⟩)
      else
        (⟨p.message, false, dt⟩, .ok ⟨false, false, dt⟩) := by
  rw [parse_move_response_spec, hd]

/-- C1 witness: `{success: true, moved: false, alive: true}` yields
result `(false, true, null)` and leaves the session alive. -/
theorem parse_move_response_branch_algorithm_witness :
    parse_move_response SessionState.initial
        { success := some true, moved := some false, alive := some true } =
      (⟨none, true, none⟩, .ok ⟨false, true, none⟩) := by
  have h := parse_move_response_branch_algorithm SessionState.initial
    { success := some true, moved := some false, alive := some true } none rfl
  simpa using h

/-- C2 counterexample: on the payload `{discovered: {str: "A"}}` the tile
decode raises, and a session whose `_discovered_tile` was `Tile("AB")`
keeps it — it is not cleared to `None` as the claim states. -/
theorem parse_move_response_mutation_counterexample :
    ¬ ((parse_move_response ⟨none, true, some ⟨'A', 'B'⟩⟩
          { discovered := some ⟨some "A"⟩ }).1.discovered_tile = none) := by
  decide

/-- C2 amended: when the `discovered` field decodes (or is absent), all
three session fields are written: `lastMessage`, `lastDiscoveredTile`, and
`agentAlive`; but when decoding `discovered` raises, only
`last_response_message` has been updated — `_discovered_tile` and
`is_agent_alive` keep their previous values and the error propagates. -/
theorem parse_move_response_mutation_amended (s : SessionState)
    (p : MovePayload) :
    (∀ dt, Tile.from_json p.discovered = .ok dt →
      (parse_move_response s p).1 =
        ⟨p.message, if p.success.getD false then p.alive.getD false else false,
         dt⟩) ∧
    (∀ e, Tile.from_json p.discovered = .error e →
      (parse_move_response s p).1 =
        ⟨p.message, s.is_agent_alive, s.discovered_tile⟩ ∧
      (parse_move_response s p).2 = .error e) := by
  constructor
  · intro dt hd
    rw [parse_move_response_spec, hd]
    rcases hs : p.success.getD false <;> simp [hs]
  · intro e hd
    rw [parse_move_response_spec, hd]
    exact ⟨rfl, rfl⟩

/-- C2 amended witness: concrete failing and succeeding decodes. -/
theorem parse_move_response_mutation_amended_witness :
    (parse_move_response ⟨none, true, some ⟨'A', 'B'⟩⟩
        { discovered := some ⟨some "A"⟩ }).1 =
      ⟨none, true, some ⟨'A', 'B'⟩⟩ ∧
    (parse_move_response SessionState.initial
        { success := some true, discovered := some ⟨some "XY"⟩ }).1 =
      ⟨none, false, some ⟨'X', 'Y'⟩⟩ := by
  refine ⟨((parse_move_response_mutation_amended ⟨none, true, some ⟨'A', 'B'⟩⟩
      { discovered := some ⟨some "A"⟩ }).2
      "Invalid tile JSON: missing/invalid 'str'." rfl).1, ?_⟩
  have h := (parse_move_response_mutation_amended SessionState.initial
      { success := some true, discovered := some ⟨some "XY"⟩ }).1
      (some ⟨'X', 'Y'⟩) rfl
  simpa using h

/-- C3: when the `move_async` exchange fails at transport level, the
completion records the failure text as the session's last message and
resolves the handle with `MovementResult(False, False, None)` — the
handle's `ready` flag and done event are set, so it is never left
pending. -/
theorem move_async_transport_failure_resolves (s : SessionState)
    (h : AsyncMovementResult) (e : String) :
    (runner_complete s h (.failure e)).1.last_response_message = some e ∧
    (runner_complete s h (.failure e)).2 =
      { ready := true, movement_result := some ⟨false, false, none⟩,
        done := true } :=
  ⟨rfl, rfl⟩

/-- C4: along the handle's completion sequence, a state with `ready = true`
has `movement_result = some r`, and every further step preserves the
stored result (and keeps `ready` true) — the result is assigned at most
once and `ready` flips only after the result is in place. -/
theorem async_handle_single_assignment (r : MovementResult)
    (a : AsyncMovementResult) (ha : HandleReachable r a) :
    (a.ready = true → a.movement_result = some r) ∧
    (∀ b, HandleStep r a b → a.ready = true →
      b.ready = true ∧ b.movement_result = a.movement_result) := by
  induction ha with
  | init =>
    refine ⟨fun h => ?_, fun b hb h => ?_⟩ <;>
      simp [AsyncMovementResult.initial] at h
  | step hra hstep ih =>
    rename_i a' b'
    cases hstep with
    | assign_result =>
      exact ⟨fun h => by simp at h, fun b hb h => by simp at h⟩
    | set_ready =>
      refine ⟨fun _ => rfl, fun b hb _ => ?_⟩
      cases hb
      exact ⟨rfl, rfl⟩
    | set_done =>
      refine ⟨fun _ => rfl, fun b hb _ => ?_⟩
      cases hb

/-- C4 witness: the reachable state just after `ready` is set holds the
delivered result. -/
theorem async_handle_single_assignment_witness :
    (⟨true, some ⟨false, false, none⟩, false⟩ :
        AsyncMovementResult).movement_result = some ⟨false, false, none⟩ :=
  (async_handle_single_assignment ⟨false, false, none⟩ _
    (.step (.step .init .assign_result) .set_ready)).1 rfl

/-- C5: a synchronous `move` whose HTTP exchange fails at transport level
raises the transport error to the caller and returns the session's derived
state unchanged. -/
theorem move_transport_failure_no_mutation (s : SessionState)
    (mv : List Int) (p : Int × Int) (e : String)
    (hn : normalize_move mv = .ok p) :
    move s mv (.failure e) = (s, .error (.transport e)) := by
  unfold move
  rw [hn]

/-- C5 witness: a failing exchange for the unit move leaves the fresh
session state intact. -/
theorem move_transport_failure_no_mutation_witness :
    move SessionState.initial [1, 0] (.failure "connection refused") =
      (SessionState.initial, .error (.transport "connection refused")) :=
  move_transport_failure_no_mutation SessionState.initial [1, 0] (1, 0)
    "connection refused" rfl

/-- C6 counterexample: `[2^63, 0]` (where `2^63 = 9223372036854775808`)
is a length-2 integer sequence, but `np.array(move, dtype=int)` raises
`OverflowError` converting its first entry to a C long, so
`_normalize_move` does not return the pair unchanged. -/
theorem normalize_move_contract_counterexample :
    ¬ (normalize_move [9223372036854775808, 0] =
        .ok (9223372036854775808, 0)) := by
  have he : normalize_move [9223372036854775808, 0] =
      .error "Python int too large to convert to C long" := rfl
  rw [he]
  intro h
  exact Except.noConfusion h

/-- C6 amended: `_normalize_move` returns a length-2 integer sequence
unchanged as a pair provided both entries fit the 64-bit machine integer
of `np.array(dtype=int)`; any other shape with in-range entries raises the
shape `ValueError`, and in that case `move` raises the validation error
without consulting the transport at all; an entry outside the
machine-integer range raises `OverflowError` before the shape check. -/
theorem normalize_move_contract_amended (mv : List Int) :
    (∀ a b, mv = [a, b] → fitsCLong a = true → fitsCLong b = true →
      normalize_move mv = .ok (a, b)) ∧
    (mv.all fitsCLong = true → mv.length ≠ 2 →
      normalize_move mv =
        .error "move must be a length-2 sequence/array, got wrong shape" ∧
      ∀ s outcome, move s mv outcome =
        (s, .error (.validation
          "move must be a length-2 sequence/array, got wrong shape"))) ∧
    (mv.all fitsCLong = false →
      normalize_move mv =
        .error "Python int too large to convert to C long") := by
  refine ⟨?_, ?_, ?_⟩
  · rintro a b rfl ha hb
    simp [normalize_move, ha, hb]
  · intro hall h
    have he : normalize_move mv =
        .error "move must be a length-2 sequence/array, got wrong shape" := by
      unfold normalize_move
      rw [hall]
      rcases mv with _ | ⟨a, _ | ⟨b, _ | ⟨c, t⟩⟩⟩
      · rfl
      · rfl
      · exact absurd rfl h
      · rfl
    refine ⟨he, fun s outcome => ?_⟩
    unfold move
    rw [he]
  · intro hall
    simp [normalize_move, hall]

/-- C6 amended witness: `[3, 4]` is returned unchanged; `[1, 2, 3]` is
rejected for its shape; `[2^63, 0]` overflows. -/
theorem normalize_move_contract_amended_witness :
    normalize_move [3, 4] = .ok (3, 4) ∧
    normalize_move [1, 2, 3] =
      .error "move must be a length-2 sequence/array, got wrong shape" ∧
    normalize_move [9223372036854775808, 0] =
      .error "Python int too large to convert to C long" :=
  ⟨(normalize_move_contract_amended [3, 4]).1 3 4 rfl (by decide) (by decide),
   ((normalize_move_contract_amended [1, 2, 3]).2.1 (by decide) (by decide)).1,
   (normalize_move_contract_amended [9223372036854775808, 0]).2.2 (by decide)⟩

/-- C7: `create` rejects a connect response with `success` false or absent
with the server-supplied message (or the generic fallback), and rejects a
`success: true` response missing the `sid` field with the protocol error;
in both cases no session is produced. -/
theorem factory_create_failure_policy (data : ConnectResponse) :
    (data.success.getD false = false →
      factory_create data = .error (.connect_rejected
        (data.message.getD "Unknown error during session creation."))) ∧
    (data.success.getD false = true → data.sid = none →
      factory_create data =
        .error (.protocol "Invalid response from server: missing 'sid'.")) := by
  constructor
  · intro h
    simp [factory_create, h]
  · intro h hs
    simp [factory_create, h, hs, sidFalsy]

/-- C7 witness: a rejected handshake carries the server message, and
`{success: true}` without a `sid` fails with the protocol error. -/
theorem factory_create_failure_policy_witness :
    factory_create
        { success := none, sid := some "abc", message := some "server says no" } =
      .error (.connect_rejected "server says no") ∧
    factory_create { success := some true } =
      .error (.protocol "Invalid response from server: missing 'sid'.") :=
  ⟨(factory_create_failure_policy
      { success := none, sid := some "abc", message := some "server says no" }).1 rfl,
   (factory_create_failure_policy { success := some true }).2 rfl rfl⟩

/-- C8: `Tile.from_json (Tile.to_json t) = t` for every tile, and
`from_json` raises on any record whose `str` field is absent or not
exactly two characters. -/
theorem tile_json_round_trip (t : Tile) (obj : TileJson) :
    Tile.from_json (Tile.to_json (some t)) = .ok (some t) ∧
    ((obj.str = none ∨ ∀ s, obj.str = some s → s.length ≠ 2) →
      Tile.from_json (some obj) =
        .error "Invalid tile JSON: missing/invalid 'str'.") := by
  constructor
  · rfl
  · intro h
    rcases hobj : obj.str with _ | s
    · simp [Tile.from_json, hobj]
    · rcases h with hnone | hlen
      · rw [hobj] at hnone
        exact absurd hnone (by simp)
      · simp [Tile.from_json, hobj, hlen s hobj]

/-- C8 witness: round trip of `Tile("AB")`, and rejection of a one-character
`str`. -/
theorem tile_json_round_trip_witness :
    Tile.from_json (Tile.to_json (some ⟨'A', 'B'⟩)) = .ok (some ⟨'A', 'B'⟩) ∧
    Tile.from_json (some ⟨some "A"⟩) =
      .error "Invalid tile JSON: missing/invalid 'str'." :=
  ⟨(tile_json_round_trip ⟨'A', 'B'⟩ ⟨some "A"⟩).1,
   (tile_json_round_trip ⟨'A', 'B'⟩ ⟨some "A"⟩).2
     (Or.inr (fun s hs => by cases hs; decide))⟩

/-- C9: constructing a `VisualSessionIdentifier` with a label longer than
two characters, or assigning such a label, raises `ValueError`; a failed
assignment leaves the object unchanged, and every reachable object's label
has length at most 2. -/
theorem vsid_label_validation (v : VisualSessionIdentifier) (s : String)
    (c : Color) :
    (s.length > 2 →
      VisualSessionIdentifier.make s c =
        .error "Identifier string can be 2 characters at most." ∧
      (v.set_identifier_str s).2 =
        .error "Identifier string can be 2 characters at most." ∧
      (v.set_identifier_str s).1 = v) ∧
    (VsidReachable v → v.identifier_str.length ≤ 2) := by
  constructor
  · intro h
    refine ⟨?_, ?_, ?_⟩ <;>
      simp [VisualSessionIdentifier.make,
        VisualSessionIdentifier.set_identifier_str, h]
  · intro hr
    induction hr with
    | construct hmk =>
      rename_i s' c' v'
      by_cases h : s'.length > 2
      · simp [VisualSessionIdentifier.make, h] at hmk
      · simp [VisualSessionIdentifier.make, h] at hmk
        rw [← hmk]
        show s'.length ≤ 2
        omega
    | set_label s' hr ih =>
      rename_i v'
      by_cases h : s'.length > 2
      · simpa [VisualSessionIdentifier.set_identifier_str, h] using ih
      · have hset : (v'.set_identifier_str s').1 =
            { v' with identifier_str := s' } := by
          simp [VisualSessionIdentifier.set_identifier_str, h]
        rw [hset]
        show s'.length ≤ 2
        omega
    | set_color hr ih =>
      exact ih

/-- C9 witness: a 3-character label is rejected on construction and on
assignment (leaving the old object intact), and a freshly constructed
object satisfies the length invariant. -/
theorem vsid_label_validation_witness :
    VisualSessionIdentifier.make "ABC" Color.White =
      .error "Identifier string can be 2 characters at most." ∧
    ((⟨"A", Color.White⟩ : VisualSessionIdentifier).set_identifier_str
        "ABC").1 = ⟨"A", Color.White⟩ ∧
    (⟨"A", Color.White⟩ :
        VisualSessionIdentifier).identifier_str.length ≤ 2 := by
  have h := vsid_label_validation ⟨"A", Color.White⟩ "ABC" Color.White
  exact ⟨(h.1 (by decide)).1, (h.1 (by decide)).2.2,
    h.2 (@VsidReachable.construct "A" Color.White ⟨"A", Color.White⟩ rfl)⟩

/-- C10: on the `move_async` transport-failure path the completion writes
only the session's last message: `is_agent_alive` and `_discovered_tile`
keep their previous values, even though the delivered result reports the
agent as dead. -/
theorem move_async_failure_frame (s : SessionState)
    (h : AsyncMovementResult) (e : String) :
    (runner_complete s h (.failure e)).1.is_agent_alive = s.is_agent_alive ∧
    (runner_complete s h (.failure e)).1.discovered_tile =
      s.discovered_tile ∧
    (runner_complete s h (.failure e)).1.last_response_message = some e ∧
    (runner_complete s h (.failure e)).2.movement_result =
      some ⟨false, false, none⟩ :=
  ⟨rfl, rfl, rfl, rfl⟩

end RemoteExplorerGame
